import Mathlib

/-!
# CIBYP IoT TRNG: card catalog and draw page

A shallow embedding of `tarot_data.h` (the 78-entry card table) and of the
draw tab of `web_ui.h` (spread buttons, `posLabels`, `doDraw`,
`renderResults`), with the properties of the card-draw contract stated
against them.
-/

namespace CIBYP

/-! ## tarot_data.h -/

/-- Modelled from the spec: the record type `TarotCard`, whose declaration
is not in `tarot_data.h`. The six fields of the data model (`id`, `nameLocal`,
`nameEn`, `arcana`, `meaningUpright`, `meaningReversed`) stand in the order in
which the initialisers of `tarotCards` give their values. -/
structure TarotCard where
  id : Int
  nameLocal : String
  nameEn : String
  arcana : String
  meaningUpright : String
  meaningReversed : String
  deriving DecidableEq, Repr

/-- The table `tarotCards[78]`, entry by entry in storage order. -/
def tarotCards : List TarotCard := [
  -- Major Arcana (0-21)
  TarotCard.mk 0 "愚者" "The Fool" "major" "新的开始、冒险、自由" "鲁莽、冲动、不计后果",
  TarotCard.mk 1 "魔术师" "The Magician" "major" "创造力、技能、意志力" "欺骗、操控、才能浪费",
  TarotCard.mk 2 "女祭司" "The High Priestess" "major" "直觉、潜意识、神秘" "隐秘、脱节、表面化",
  TarotCard.mk 3 "女皇" "The Empress" "major" "丰饶、母性、自然" "依赖、空虚、创意枯竭",
  TarotCard.mk 4 "皇帝" "The Emperor" "major" "权威、结构、领导力" "专制、僵化、控制欲",
  TarotCard.mk 5 "教皇" "The Hierophant" "major" "传统、信仰、指导" "叛逆、打破常规、教条",
  TarotCard.mk 6 "恋人" "The Lovers" "major" "爱情、和谐、选择" "失衡、分离、价值观冲突",
  TarotCard.mk 7 "战车" "The Chariot" "major" "意志力、胜利、决心" "失控、攻击性、方向迷失",
  TarotCard.mk 8 "力量" "Strength" "major" "勇气、耐心、内在力量" "自我怀疑、软弱、不安",
  TarotCard.mk 9 "隐者" "The Hermit" "major" "内省、寻找真理、独处" "孤立、逃避、固执己见",
  TarotCard.mk 10 "命运之轮" "Wheel of Fortune" "major" "命运、转折点、机遇" "厄运、抗拒变化、失控",
  TarotCard.mk 11 "正义" "Justice" "major" "公正、真相、因果" "不公、偏见、逃避责任",
  TarotCard.mk 12 "倒吊人" "The Hanged Man" "major" "牺牲、放下、新视角" "拖延、抗拒、徒劳牺牲",
  TarotCard.mk 13 "死神" "Death" "major" "结束、转变、新生" "抗拒改变、停滞、恐惧",
  TarotCard.mk 14 "节制" "Temperance" "major" "平衡、耐心、调和" "失衡、过度、缺乏远见",
  TarotCard.mk 15 "恶魔" "The Devil" "major" "诱惑、束缚、物质主义" "解脱、觉醒、打破枷锁",
  TarotCard.mk 16 "塔" "The Tower" "major" "剧变、觉醒、解放" "逃避灾难、恐惧改变",
  TarotCard.mk 17 "星星" "The Star" "major" "希望、灵感、宁静" "绝望、失信、脱节",
  TarotCard.mk 18 "月亮" "The Moon" "major" "幻觉、直觉、不安" "释放恐惧、真相大白",
  TarotCard.mk 19 "太阳" "The Sun" "major" "成功、活力、快乐" "暂时低落、过度乐观",
  TarotCard.mk 20 "审判" "Judgement" "major" "重生、反思、召唤" "自我怀疑、拒绝反省",
  TarotCard.mk 21 "世界" "The World" "major" "完成、成就、旅程终点" "未完成、拖延、缺乏结局",
  -- Minor Arcana: Wands (22-35)
  TarotCard.mk 22 "权杖王牌" "Ace of Wands" "minor" "灵感、新机遇、潜力" "延迟、缺乏动力",
  TarotCard.mk 23 "权杖二" "Two of Wands" "minor" "计划、展望、决策" "恐惧未知、缺乏规划",
  TarotCard.mk 24 "权杖三" "Three of Wands" "minor" "远见、拓展、等待成果" "受阻、缺乏远见",
  TarotCard.mk 25 "权杖四" "Four of Wands" "minor" "庆祝、和谐、里程碑" "不稳定、过渡期",
  TarotCard.mk 26 "权杖五" "Five of Wands" "minor" "竞争、冲突、挑战" "逃避冲突、内心矛盾",
  TarotCard.mk 27 "权杖六" "Six of Wands" "minor" "胜利、认可、成就" "失败、缺乏信心",
  TarotCard.mk 28 "权杖七" "Seven of Wands" "minor" "防御、坚持、挑战" "屈服、不堪重负",
  TarotCard.mk 29 "权杖八" "Eight of Wands" "minor" "快速行动、进展、消息" "延迟、受阻、混乱",
  TarotCard.mk 30 "权杖九" "Nine of Wands" "minor" "坚韧、毅力、考验" "疲惫、放弃、偏执",
  TarotCard.mk 31 "权杖十" "Ten of Wands" "minor" "重担、责任、压力" "逃避责任、精疲力竭",
  TarotCard.mk 32 "权杖侍从" "Page of Wands" "minor" "热情、探索、新消息" "鲁莽、缺乏方向",
  TarotCard.mk 33 "权杖骑士" "Knight of Wands" "minor" "冒险、热情、行动" "冲动、鲁莽、半途而废",
  TarotCard.mk 34 "权杖王后" "Queen of Wands" "minor" "自信、决断、温暖" "自私、嫉妒、报复",
  TarotCard.mk 35 "权杖国王" "King of Wands" "minor" "领导力、远见、成熟" "专横、独断、高期望",
  -- Minor Arcana: Cups (36-49)
  TarotCard.mk 36 "圣杯王牌" "Ace of Cups" "minor" "新感情、直觉、创意" "感情压抑、空虚",
  TarotCard.mk 37 "圣杯二" "Two of Cups" "minor" "伙伴关系、相互吸引、合作" "失衡、分离、误解",
  TarotCard.mk 38 "圣杯三" "Three of Cups" "minor" "友谊、庆祝、创意" "过度放纵、孤立",
  TarotCard.mk 39 "圣杯四" "Four of Cups" "minor" "沉思、不满、冷漠" "动力恢复、新意识",
  TarotCard.mk 40 "圣杯五" "Five of Cups" "minor" "失落、悲伤、遗憾" "接受、前进、原谅",
  TarotCard.mk 41 "圣杯六" "Six of Cups" "minor" "怀旧、童真、善意" "活在当下、放下过去",
  TarotCard.mk 42 "圣杯七" "Seven of Cups" "minor" "幻想、选择、白日梦" "诱惑、困惑、逃避现实",
  TarotCard.mk 43 "圣杯八" "Eight of Cups" "minor" "放弃、寻求真相、前进" "逃避、恐惧改变",
  TarotCard.mk 44 "圣杯九" "Nine of Cups" "minor" "满足、幸福、愿望实现" "不满、贪婪、虚荣",
  TarotCard.mk 45 "圣杯十" "Ten of Cups" "minor" "家庭美满、和谐、圆满" "家庭冲突、不和谐",
  TarotCard.mk 46 "圣杯侍从" "Page of Cups" "minor" "创意、直觉、新感情" "情绪不稳、不成熟",
  TarotCard.mk 47 "圣杯骑士" "Knight of Cups" "minor" "浪漫、魅力、理想主义" "情感欺骗、不现实",
  TarotCard.mk 48 "圣杯王后" "Queen of Cups" "minor" "同情、直觉、情感成熟" "情感依赖、不安全",
  TarotCard.mk 49 "圣杯国王" "King of Cups" "minor" "情感平衡、慷慨、外交" "情感操控、压抑",
  -- Minor Arcana: Swords (50-63)
  TarotCard.mk 50 "宝剑王牌" "Ace of Swords" "minor" "清晰、真相、突破" "混乱、误解、暴力",
  TarotCard.mk 51 "宝剑二" "Two of Swords" "minor" "抉择、僵局、回避" "信息过载、犹豫不决",
  TarotCard.mk 52 "宝剑三" "Three of Swords" "minor" "心碎、悲痛、分离" "恢复、原谅、释放痛苦",
  TarotCard.mk 53 "宝剑四" "Four of Swords" "minor" "休息、恢复、冥想" "疲劳、倦怠、不安",
  TarotCard.mk 54 "宝剑五" "Five of Swords" "minor" "冲突、失败、欺骗" "和解、原谅、放下",
  TarotCard.mk 55 "宝剑六" "Six of Swords" "minor" "过渡、离开、前进" "困在过去、抗拒改变",
  TarotCard.mk 56 "宝剑七" "Seven of Swords" "minor" "策略、隐秘、独立" "欺骗暴露、自我欺骗",
  TarotCard.mk 57 "宝剑八" "Eight of Swords" "minor" "受困、限制、无力感" "自我解放、新观点",
  TarotCard.mk 58 "宝剑九" "Nine of Swords" "minor" "焦虑、噩梦、绝望" "恢复希望、面对恐惧",
  TarotCard.mk 59 "宝剑十" "Ten of Swords" "minor" "终结、痛苦、失败" "恢复、浴火重生",
  TarotCard.mk 60 "宝剑侍从" "Page of Swords" "minor" "好奇、机敏、新想法" "八卦、草率、缺乏计划",
  TarotCard.mk 61 "宝剑骑士" "Knight of Swords" "minor" "果断、雄心、冲锋" "鲁莽、无情、仓促",
  TarotCard.mk 62 "宝剑王后" "Queen of Swords" "minor" "独立、清晰、直率" "冷漠、苛刻、偏见",
  TarotCard.mk 63 "宝剑国王" "King of Swords" "minor" "权威、理性、公正" "冷酷、独裁、暴君",
  -- Minor Arcana: Pentacles (64-77)
  TarotCard.mk 64 "星币王牌" "Ace of Pentacles" "minor" "新财运、机遇、繁荣" "机会错失、计划不周",
  TarotCard.mk 65 "星币二" "Two of Pentacles" "minor" "平衡、灵活、优先级" "失衡、力不从心",
  TarotCard.mk 66 "星币三" "Three of Pentacles" "minor" "团队合作、技能、学习" "缺乏合作、平庸",
  TarotCard.mk 67 "星币四" "Four of Pentacles" "minor" "安全感、控制、节俭" "贪婪、吝啬、过度控制",
  TarotCard.mk 68 "星币五" "Five of Pentacles" "minor" "困难、贫困、孤立" "恢复、重新站起来",
  TarotCard.mk 69 "星币六" "Six of Pentacles" "minor" "慷慨、施与受、平衡" "权力不平等、自私",
  TarotCard.mk 70 "星币七" "Seven of Pentacles" "minor" "耐心、投资、等待收获" "缺乏远见、急于求成",
  TarotCard.mk 71 "星币八" "Eight of Pentacles" "minor" "勤奋、技艺、专注" "完美主义、缺乏动力",
  TarotCard.mk 72 "星币九" "Nine of Pentacles" "minor" "独立、富足、自律" "过度依赖、缺乏自律",
  TarotCard.mk 73 "星币十" "Ten of Pentacles" "minor" "财富、传承、家族" "财务纠纷、短期思维",
  TarotCard.mk 74 "星币侍从" "Page of Pentacles" "minor" "学习、务实、新技能" "缺乏进步、短视",
  TarotCard.mk 75 "星币骑士" "Knight of Pentacles" "minor" "稳定、勤劳、耐心" "无聊、停滞、懒惰",
  TarotCard.mk 76 "星币王后" "Queen of Pentacles" "minor" "务实、安全感、滋养" "工作生活失衡、不安全",
  TarotCard.mk 77 "星币国王" "King of Pentacles" "minor" "财富、安全、领导力" "贪婪、物质主义、固执"
]

/-- The constant `TAROT_CARD_COUNT`. -/
def TAROT_CARD_COUNT : Int := 78

/-- The storage slot `tarotCards[i]` of the C array: defined for the 78
positions of the array and for no other index. -/
def tarotCardAt (i : Int) : Option TarotCard :=
  if 0 ≤ i then tarotCards[i.toNat]? else none

/-- The error kinds of the catalog contract. -/
inductive CatalogError where
  | OutOfRange
  deriving DecidableEq, Repr

/-- Modelled from the spec: the lookup `get(id) -> Card` of the catalog
contract, which is not a function of `tarot_data.h` (the header only declares
the table). It fails with `OutOfRange` if `id` is not in [0,77] and otherwise
looks the record up by its identifier in the table. -/
def get (id : Int) : Except CatalogError TarotCard :=
  if 0 ≤ id ∧ id ≤ 77 then
    match tarotCards.find? (fun c => c.id == id) with
    | some c => .ok c
    | none => .error .OutOfRange
  else .error .OutOfRange

/-- Modelled from the spec: `count() -> 78`, the number of records of the
catalog, read off the table. -/
def count : Nat := tarotCards.length

/-- The four suits in the order the table lays them out, each with its
English name and the prefix of its local names. -/
def suits : List (String × String) :=
  [("Wands", "权杖"), ("Cups", "圣杯"), ("Swords", "宝剑"), ("Pentacles", "星币")]

/-- The fourteen ranks of a suit in table order. -/
def ranks : List String :=
  ["Ace", "Two", "Three", "Four", "Five", "Six", "Seven", "Eight", "Nine", "Ten",
   "Page", "Knight", "Queen", "King"]

/-! ## web_ui.h: the draw tab -/

/-- A `spread-btn` element of the draw tab: its `data-type` attribute, its
caption and the text of its `<small>` child. -/
structure SpreadBtn where
  dataType : String
  caption : String
  small : String
  deriving DecidableEq, Repr

/-- The nine `spread-btn` elements in document order. -/
def spreadBtns : List SpreadBtn := [
  SpreadBtn.mk "single" "单牌" "1张",
  SpreadBtn.mk "three" "三张牌阵" "过去/现在/未来",
  SpreadBtn.mk "yes_no" "是非牌" "1张",
  SpreadBtn.mk "star" "五芒星" "5张",
  SpreadBtn.mk "horseshoe" "马蹄牌阵" "7张",
  SpreadBtn.mk "hexagram" "六芒星" "7张",
  SpreadBtn.mk "celtic" "凯尔特十字" "10张",
  SpreadBtn.mk "relationship" "关系牌阵" "5张",
  SpreadBtn.mk "zodiac" "黄道十二宫" "12张"
]

/-- The script object `posLabels`: spread type to ordered position labels,
in the order the object literal lists its keys. -/
def posLabels : List (String × List String) := [
  ("single", ["当前指引"]),
  ("yes_no", ["回答"]),
  ("three", ["过去", "现在", "未来"]),
  ("star", ["当前处境", "挑战", "过去", "未来", "结果"]),
  ("horseshoe", ["过去", "现在", "隐藏影响", "障碍", "周围环境", "建议", "结果"]),
  ("hexagram", ["过去", "现在", "未来", "基础", "挑战", "近期", "结果"]),
  ("celtic", ["现状", "挑战", "潜意识", "过去", "可能性", "近未来", "自我态度", "环境",
    "希望/恐惧", "最终结果"]),
  ("relationship", ["你", "对方", "关系基础", "挑战", "未来走向"]),
  ("zodiac", ["白羊", "金牛", "双子", "巨蟹", "狮子", "处女", "天秤", "天蝎", "射手", "摩羯",
    "水瓶", "双鱼"])
]

/-- Value of a run of decimal digits, most significant first. -/
def digitsValue (ds : List Char) : Nat :=
  ds.foldl (fun acc d => 10 * acc + (d.toNat - '0'.toNat)) 0

/-- The card count a button advertises in its `<small>` text: the number in
front of the counter word `张` when the text has that shape, nothing
otherwise (the `three` button shows its labels instead). -/
def advertisedCount (small : String) : Option Nat :=
  match small.data.reverse with
  | '张' :: ds =>
    if ds ≠ [] ∧ ds.all Char.isDigit = true then some (digitsValue ds.reverse) else none
  | _ => none

/-- Modelled from the spec: the enumerated spread types with their card
counts, `single`:1, `yes_no`:1, `three`:3, `star`:5, `horseshoe`:7,
`hexagram`:7, `celtic`:10, `relationship`:5, `zodiac`:12. The server table
that holds them is not part of the two headers. -/
def specCardCount : List (String × Nat) := [
  ("single", 1), ("yes_no", 1), ("three", 3), ("star", 5), ("horseshoe", 7),
  ("hexagram", 7), ("celtic", 10), ("relationship", 5), ("zodiac", 12)
]

/-- Modelled from the spec: `cardCount` of a spread type, nothing for a type
outside the enumerated set. -/
def cardCount (spreadType : String) : Option Nat := specCardCount.lookup spreadType

/-- One element of the `cards` array of a `/api/spread` reply. The two
meanings may be absent: the script guards both with `|| ''`. -/
structure CardJson where
  name : String
  nameEn : String
  arcana : String
  isReversed : Bool
  meaningOfUpright : Option String
  meaningOfReversed : Option String
  deriving DecidableEq, Repr

/-- The parsed body of a `/api/spread` reply, as far as the script reads it:
the properties `spread` and `cards`, and `error` of an error object. An absent
property is `none` (JavaScript `undefined`). -/
structure Reply where
  spread : Option String
  cards : Option (List CardJson)
  error : Option String
  deriving DecidableEq, Repr

/-- JavaScript `x || d` on a string-or-undefined `x`: `undefined` and the
empty string are falsy. -/
def jsOr (x : Option String) (d : String) : String :=
  match x with
  | some s => if s = "" then d else s
  | none => d

/-- JavaScript string concatenation of a string-or-undefined value. -/
def jsStr (x : Option String) : String :=
  match x with
  | some s => s
  | none => "undefined"

/-- The local `label` of the `forEach` callback, `labels[i] || ('位置 '+(i+1))`. -/
def posLabel (labels : List String) (i : Nat) : String :=
  jsOr labels[i]? ("位置 " ++ toString (i + 1))

/-- The markup one iteration of `data.cards.forEach((c, i) => ...)` appends
to `html`. -/
def cardBlock (labels : List String) (c : CardJson) (i : Nat) : String :=
  let label := posLabel labels i
  let isRev := c.isReversed
  let up := jsOr c.meaningOfUpright ""
  let rev := jsOr c.meaningOfReversed ""
  let primaryLabel := if isRev then "逆位含义" else "正位含义"
  let secondaryLabel := if isRev then "正位含义" else "逆位含义"
  let primaryText := if isRev then rev else up
  let secondaryText := if isRev then up else rev
  "<div class=\"tarot-card " ++ (if isRev then "reversed" else "") ++ "\">"
    ++ ("<div class=\"spread-label\">" ++ label ++ "</div>")
    ++ ("<div class=\"name\">" ++ c.name ++ (if isRev then " (逆位)" else " (正位)") ++ "</div>")
    ++ ("<div class=\"name-en\">" ++ c.nameEn ++ " - " ++ c.arcana ++ "</div>")
    ++ ("<span class=\"orientation-badge " ++ (if isRev then "reversed" else "upright") ++ "\">"
        ++ (if isRev then "逆位" else "正位") ++ "</span>")
    ++ ("<div class=\"meaning\"><strong>" ++ primaryLabel ++ ":</strong> " ++ primaryText
        ++ "</div>")
    ++ ("<div class=\"meaning secondary\"><strong>" ++ secondaryLabel ++ ":</strong> "
        ++ secondaryText ++ "</div>")
    ++ "</div>"

/-- The blocks `forEach` appends for the cards from index `i` on, in array
order. -/
def cardBlocks (labels : List String) : List CardJson → Nat → List String
  | [], _ => []
  | c :: cs, i => cardBlock labels c i :: cardBlocks labels cs (i + 1)

/-- The text of the `Simple analysis` paragraph of `renderResults`, between
`<p>` and `</p>`. -/
def analysisText (cards : List CardJson) : String :=
  match cards with
  | [c] =>
    "你抽到了<strong>" ++ c.name ++ "</strong>" ++ (if c.isReversed then "(逆位)" else "(正位)")
      ++ "。这张牌代表: "
      ++ jsStr (if c.isReversed then c.meaningOfReversed else c.meaningOfUpright)
      ++ "。请结合你当前的处境和问题来理解这张牌的指引。"
  | _ =>
    let up := (cards.filter (fun c => !c.isReversed)).length
    let rev := (cards.filter (fun c => c.isReversed)).length
    let major := (cards.filter (fun c => c.arcana == "major")).length
    "共" ++ toString cards.length ++ "张牌中，<strong>" ++ toString up ++ "张正位</strong>、<strong>"
      ++ toString rev ++ "张逆位</strong>"
      ++ (if major > 0 then
            "，其中<strong>" ++ toString major ++ "张大阿卡纳</strong>，显示出命运层面的重大影响"
          else "")
      ++ "。"
      ++ (if up > rev then "整体能量偏向积极正面。"
          else if rev > up then "整体需要更多的反思与调整。"
          else "正逆位均衡，暗示事物处于转折点。")

/-- The function `renderResults(data)`, reading the global `selectedSpread`.
It returns the markup it assigns to `results.innerHTML`, or throws: when
`data.cards` is undefined, `data.cards.forEach` raises a `TypeError` whose
message text `typeErrorMessage` is the script engine's, and the assignment is
never reached. -/
def renderResults (typeErrorMessage : String) (selectedSpread : String) (data : Reply) :
    Except String String :=
  let labels := (posLabels.lookup selectedSpread).getD []
  let html := "<div class=\"entropy-badge\">TRNG 硬件真随机</div>"
  let html := html ++ ("<h3 style=\"margin-bottom:16px\">" ++ jsOr data.spread "抽牌结果" ++ "</h3>")
  match data.cards with
  | none => .error typeErrorMessage
  | some cards =>
    let html := html ++ String.join (cardBlocks labels cards 0)
    let html := html ++ "<div class=\"analysis\"><h4>简要分析</h4><p>"
    let html := html ++ analysisText cards
    let html := html ++ "</p></div>"
    .ok html

/-- The state of the draw tab the script reads and writes: the global
`selectedSpread`, the text and `disabled` flag of `#btn-draw`, the markup of
`#results`, and the `type` query of the request `doDraw` is waiting on at its
`await`, if any. -/
structure Page where
  selectedSpread : String
  btnText : String
  btnDisabled : Bool
  results : String
  inFlight : Option String
  deriving DecidableEq, Repr

/-- The page as loaded: `selectedSpread = 'single'`, the button as the
markup gives it, an empty results pane. -/
def Page.initial : Page :=
  { selectedSpread := "single", btnText := "抽牌", btnDisabled := false, results := "",
    inFlight := none }

/-- How the two awaits of `doDraw` settle: `fetch` or `res.json()` rejects
with an error of the given message, or the body parses to `data`. `fetch`
resolves on any HTTP status, so the status comes with the data and `doDraw`
never reads it. -/
inductive FetchOutcome where
  | rejected (message : String)
  | json (status : Nat) (data : Reply)
  deriving DecidableEq, Repr

/-- What can happen to the draw tab: a click on the `i`-th spread button, a
click on `#btn-draw`, and the settling of the pending request. -/
inductive Event where
  | clickSpread (i : Nat)
  | clickDraw
  | settle (outcome : FetchOutcome)
  deriving DecidableEq, Repr

/-- The click listener of a spread button: `selectedSpread = b.dataset.type`. -/
def clickSpread (p : Page) (i : Nat) : Page :=
  match spreadBtns[i]? with
  | some b => { p with selectedSpread := b.dataType }
  | none => p

/-- The part of `doDraw` before the first `await`: the button shows progress
and is disabled, and the request goes out with the selection of that moment. -/
def doDrawStart (p : Page) : Page :=
  { p with btnText := "正在抽牌...", btnDisabled := true, inFlight := some p.selectedSpread }

/-- The part of `doDraw` after the awaits: `renderResults(data)` inside the
`try`, the `catch` that writes the failure message, then the two statements
that restore the button. -/
def doDrawResume (typeErrorMessage : String) (p : Page) (outcome : FetchOutcome) : Page :=
  let caught (message : String) : String :=
    "<div class=\"status-msg error\">抽牌失败: " ++ message ++ "</div>"
  let results :=
    match outcome with
    | .rejected message => caught message
    | .json _ data =>
      match renderResults typeErrorMessage p.selectedSpread data with
      | .ok html => html
      | .error message => caught message
  { p with results := results, btnText := "抽牌", btnDisabled := false, inFlight := none }

/-- One event of the draw tab. A disabled `#btn-draw` takes no click, and a
settling with nothing pending does not occur. -/
def step (typeErrorMessage : String) (p : Page) : Event → Page
  | .clickSpread i => clickSpread p i
  | .clickDraw => if p.btnDisabled then p else doDrawStart p
  | .settle outcome =>
    match p.inFlight with
    | some _ => doDrawResume typeErrorMessage p outcome
    | none => p

/-- The page after a sequence of events, from the page as loaded. -/
def run (typeErrorMessage : String) (events : List Event) : Page :=
  events.foldl (step typeErrorMessage) Page.initial

/-- The body `{"error": msg}` of a failed `/api/spread` request: an error
object with no `spread` and no `cards` property. -/
def errorReply (msg : String) : Reply :=
  { spread := none, cards := none, error := some msg }

/-- The message text of the `TypeError` the V8 engine raises for
`data.cards.forEach` on an undefined `data.cards`. -/
def v8TypeErrorMessage : String :=
  "Cannot read properties of undefined (reading \x27forEach\x27)"

/-! ## The spread engine of the contract -/

/-- The error kinds of the draw contract. -/
inductive DrawError where
  | InvalidSpread
  | EntropyUnavailable
  deriving DecidableEq, Repr

/-- Modelled from the spec: the injected entropy source, by the outcome of
its `k`-th request: a fresh random number, or nothing when the source is
unavailable. The server code that reads the hardware generator is not part
of the two headers. -/
abbrev EntropySource := Nat → Option Nat

/-- Modelled from the spec: steps 2 to 4 of the draw algorithm for `n`
positions, from request number `k` of the entropy source and the cards not
drawn yet. Each position takes one random number to select a card of the
pool, which leaves the pool (sampling without replacement), and one to fix
the orientation, `isReversed = (bit == 1)`; the entries keep draw order. An
unavailable source fails the draw with `EntropyUnavailable`, and so does an
exhausted pool, which no spread of the enumerated set reaches. -/
def drawFrom (entropy : EntropySource) :
    Nat → Nat → List TarotCard → Except DrawError (List (TarotCard × Bool))
  | 0, _, _ => .ok []
  | n + 1, k, pool =>
    match entropy k, entropy (k + 1) with
    | some r, some bit =>
      match pool[r % pool.length]? with
      | some c =>
        match drawFrom entropy n (k + 2) (pool.eraseIdx (r % pool.length)) with
        | .ok rest => .ok ((c, bit % 2 == 1) :: rest)
        | .error e => .error e
      | none => .error .EntropyUnavailable
    | _, _ => .error .EntropyUnavailable

/-- Modelled from the spec: the operation `draw(spreadType) -> DrawResult`
of the spread engine, which lives in the server code outside the two
headers. An unknown spread type fails with `InvalidSpread`; otherwise the
spread's `cardCount` cards are drawn from the whole catalog. -/
def draw (entropy : EntropySource) (spreadType : String) :
    Except DrawError (List (TarotCard × Bool)) :=
  match cardCount spreadType with
  | none => .error .InvalidSpread
  | some n => drawFrom entropy n 0 tarotCards

/-- Modelled from the spec: the element of the `cards` array of the
`/api/spread` reply for one entry of a draw result, the card's fields taken
verbatim from its catalog record. -/
def toCardJson (e : TarotCard × Bool) : CardJson :=
  { name := e.1.nameLocal, nameEn := e.1.nameEn, arcana := e.1.arcana, isReversed := e.2,
    meaningOfUpright := some e.1.meaningUpright,
    meaningOfReversed := some e.1.meaningReversed }

/-- A reply to `/api/spread?type=three`: three cards of the catalog in draw
order, the second one reversed. -/
def threeCardReply : Reply :=
  { spread := some "三张牌阵",
    cards := some [
      CardJson.mk "愚者" "The Fool" "major" false (some "新的开始、冒险、自由")
        (some "鲁莽、冲动、不计后果"),
      CardJson.mk "魔术师" "The Magician" "major" true (some "创造力、技能、意志力")
        (some "欺骗、操控、才能浪费"),
      CardJson.mk "权杖二" "Two of Wands" "minor" false (some "计划、展望、决策")
        (some "恐惧未知、缺乏规划")],
    error := none }

deriving instance DecidableEq for Except

/-! ## Properties of the card table -/

/-- C1: the table `tarotCards` has exactly 78 entries, `TAROT_CARD_COUNT`
(and `count()`) equals that number, the `id` values listed in storage order
are 0, 1, ..., 77, so they are exactly the set {0..77}, and no two entries
share an `id`. -/
theorem tarotCards_ids_exact :
    tarotCards.length = 78 ∧ TAROT_CARD_COUNT = (tarotCards.length : Int) ∧ count = 78 ∧
    tarotCards.map (fun c => c.id) = (List.range 78).map Int.ofNat ∧
    (∀ i : Int, i ∈ tarotCards.map (fun c => c.id) ↔ 0 ≤ i ∧ i ≤ 77) ∧
    (tarotCards.map (fun c => c.id)).Nodup := by
  have hids : tarotCards.map (fun c => c.id) = (List.range 78).map Int.ofNat := by
    decide
  refine ⟨by decide, by decide, by decide, hids, ?_, by decide⟩
  intro i
  rw [hids]
  simp only [List.mem_map, List.mem_range]
  constructor
  · rintro ⟨n, hn, rfl⟩
    simp only [Int.ofNat_eq_coe]
    omega
  · rintro ⟨h0, h1⟩
    exact ⟨i.toNat, by omega, by simp only [Int.ofNat_eq_coe]; omega⟩

/-- Every position of the table holds the record of that id, and the
contract lookup returns exactly that record. -/
theorem tarotCardAt_fin : ∀ n : Fin 78,
    (tarotCardAt (n.val : Int)).map (fun c => c.id) = some (n.val : Int) ∧
    (tarotCardAt (n.val : Int)).map Except.ok = some (get (n.val : Int)) := by
  set_option maxRecDepth 100000 in decide

/-- C2: for every id in 0..77 the lookup returns a record whose `id` field
is the argument, and it is the record stored at position `id` of the table
(the table is in id order); for every id outside [0,77], among them 78 and
-1, the lookup fails with `OutOfRange` and the table has no such slot. -/
theorem get_id_or_OutOfRange (id : Int) :
    (0 ≤ id ∧ id ≤ 77 → ∃ c, get id = .ok c ∧ c.id = id ∧ tarotCardAt id = some c) ∧
    (¬ (0 ≤ id ∧ id ≤ 77) → get id = .error .OutOfRange ∧ tarotCardAt id = none) ∧
    get 78 = .error .OutOfRange ∧ get (-1) = .error .OutOfRange := by
  refine ⟨?_, ?_, by decide, by decide⟩
  · rintro ⟨h0, h1⟩
    obtain ⟨n, rfl⟩ := Int.eq_ofNat_of_zero_le h0
    have hn : n < 78 := by omega
    obtain ⟨hid, hget⟩ := tarotCardAt_fin ⟨n, hn⟩
    cases hc : tarotCardAt (n : Int) with
    | none => simp [hc] at hid
    | some c =>
      simp [hc] at hid hget
      exact ⟨c, hget.symm, hid, rfl⟩
  · intro h
    refine ⟨by unfold get; rw [if_neg h], ?_⟩
    unfold tarotCardAt
    split
    · rename_i h0
      have hlen : tarotCards.length = 78 := by decide
      exact List.getElem?_eq_none (by omega)
    · rfl

/-- Witness of C2 at id 5 (The Hierophant) and at id 78. -/
theorem get_id_or_OutOfRange_witness :
    (∃ c, get 5 = .ok c ∧ c.id = 5 ∧ tarotCardAt 5 = some c) ∧
    (get 78 = .error .OutOfRange ∧ tarotCardAt 78 = none) :=
  ⟨(get_id_or_OutOfRange 5).1 (by decide), (get_id_or_OutOfRange 78).2.1 (by decide)⟩

/-- C3: the catalog entry for id 0, by position and by lookup, is the record
of The Fool with the six field values the contract quotes. -/
theorem tarotCards_zero_is_the_fool :
    tarotCardAt 0 = some {
      id := 0, nameLocal := "愚者", nameEn := "The Fool", arcana := "major",
      meaningUpright := "新的开始、冒险、自由", meaningReversed := "鲁莽、冲动、不计后果" } ∧
    get 0 = .ok {
      id := 0, nameLocal := "愚者", nameEn := "The Fool", arcana := "major",
      meaningUpright := "新的开始、冒险、自由", meaningReversed := "鲁莽、冲动、不计后果" } := by
  decide

/-- C8: every card's `arcana` is "major" or "minor"; it is "major" exactly
when the id is in 0..21 and "minor" exactly when the id is in 22..77; there
are 22 Major Arcana and 56 Minor Arcana cards. -/
theorem arcana_by_id :
    (∀ c ∈ tarotCards, (c.arcana = "major" ∨ c.arcana = "minor") ∧
      (c.arcana = "major" ↔ 0 ≤ c.id ∧ c.id ≤ 21) ∧
      (c.arcana = "minor" ↔ 22 ≤ c.id ∧ c.id ≤ 77)) ∧
    (tarotCards.filter (fun c => c.arcana == "major")).length = 22 ∧
    (tarotCards.filter (fun c => c.arcana == "minor")).length = 56 := by
  decide

/-- C9: the card at offset `k` of suit number `s` sits at id `22 + 14 * s + k`
(Wands 22-35, Cups 36-49, Swords 50-63, Pentacles 64-77), its English name is
the `k`-th rank followed by " of " and the suit, and its local name starts
with the suit's prefix (权杖, 圣杯, 宝剑, 星币). -/
theorem minor_arcana_layout : ∀ s : Fin 4, ∀ k : Fin 14,
    (tarotCards[22 + 14 * s.val + k.val]?).map (fun c => c.id)
      = some ((22 + 14 * s.val + k.val : Nat) : Int) ∧
    (tarotCards[22 + 14 * s.val + k.val]?).map (fun c => c.nameEn)
      = (ranks[k.val]?).bind (fun rank => (suits[s.val]?).map (fun suit =>
          rank ++ " of " ++ suit.1)) ∧
    (tarotCards[22 + 14 * s.val + k.val]?).bind (fun c => (suits[s.val]?).map (fun suit =>
          suit.2.data.isPrefixOf c.nameLocal.data)) = some true := by
  set_option maxRecDepth 100000 in decide

/-! ## Properties of the spread table -/

/-- C4: the keys of `posLabels` are the nine enumerated spread types, they
are exactly the `data-type` values of the spread buttons, the number of
labels of each key is the contract's `cardCount` (1, 1, 3, 5, 7, 7, 10, 5,
12), which is positive and at most the catalog size 78, and a button that
advertises a count advertises that number. -/
theorem posLabels_match_spread_contract :
    posLabels.map Prod.fst = ["single", "yes_no", "three", "star", "horseshoe", "hexagram",
      "celtic", "relationship", "zodiac"] ∧
    (posLabels.map Prod.fst).Nodup ∧
    (spreadBtns.map SpreadBtn.dataType).Nodup ∧
    (∀ key : String, key ∈ posLabels.map Prod.fst ↔ key ∈ spreadBtns.map SpreadBtn.dataType) ∧
    posLabels.map (fun entry => (entry.1, entry.2.length)) = specCardCount ∧
    posLabels.map (fun entry => entry.2.length) = [1, 1, 3, 5, 7, 7, 10, 5, 12] ∧
    (∀ entry ∈ posLabels, 0 < entry.2.length ∧ entry.2.length ≤ 78 ∧
      entry.2.length ≤ tarotCards.length) ∧
    spreadBtns.map (fun b => (b.dataType, advertisedCount b.small)) =
      [("single", some 1), ("three", none), ("yes_no", some 1), ("star", some 5),
       ("horseshoe", some 7), ("hexagram", some 7), ("celtic", some 10),
       ("relationship", some 5), ("zodiac", some 12)] ∧
    (∀ b ∈ spreadBtns, advertisedCount b.small = none ∨
      advertisedCount b.small = (posLabels.lookup b.dataType).map List.length) := by
  have hsub : (∀ key ∈ posLabels.map Prod.fst, key ∈ spreadBtns.map SpreadBtn.dataType) ∧
      (∀ key ∈ spreadBtns.map SpreadBtn.dataType, key ∈ posLabels.map Prod.fst) := by decide
  exact ⟨by decide, by decide, by decide, fun key => ⟨hsub.1 key, hsub.2 key⟩, by decide,
    by decide, by decide, by decide, by decide⟩

/-! ## Properties of the draw -/

/-- Removing the card at a position of a pool with pairwise distinct ids
leaves a pool with distinct ids that no longer holds that card's id. -/
theorem pool_eraseIdx {pool : List TarotCard} {i : Nat} {c : TarotCard}
    (hnd : (pool.map (fun c => c.id)).Nodup) (hc : pool[i]? = some c) :
    ((pool.eraseIdx i).map (fun c => c.id)).Nodup ∧
    c.id ∉ (pool.eraseIdx i).map (fun c => c.id) ∧ c ∈ pool := by
  obtain ⟨hi, rfl⟩ := List.getElem?_eq_some.mp hc
  have hsplit : pool = pool.take i ++ pool[i] :: pool.drop (i + 1) := by
    rw [List.getElem_cons_drop, List.take_append_drop]
  have herase : pool.eraseIdx i = pool.take i ++ pool.drop (i + 1) :=
    List.eraseIdx_eq_take_drop_succ pool i
  rw [herase]
  rw [hsplit] at hnd
  simp only [List.map_append, List.map_cons] at hnd ⊢
  have h1 := List.nodup_middle.mp hnd
  rw [List.nodup_cons] at h1
  exact ⟨h1.2, h1.1, List.getElem_mem hi⟩

/-- A successful draw of `n` positions from a pool with distinct ids has `n`
entries, with pairwise distinct ids, all of them cards of the pool. -/
theorem drawFrom_ok (entropy : EntropySource) : ∀ (n k : Nat) (pool : List TarotCard)
    (r : List (TarotCard × Bool)), (pool.map (fun c => c.id)).Nodup →
    drawFrom entropy n k pool = .ok r →
    r.length = n ∧ (r.map (fun e => e.1.id)).Nodup ∧ ∀ e ∈ r, e.1 ∈ pool := by
  intro n
  induction n with
  | zero =>
    intro k pool r _ h
    simp only [drawFrom, Except.ok.injEq] at h
    subst h
    simp
  | succ n ih =>
    intro k pool r hnd h
    unfold drawFrom at h
    split at h
    · rename_i rnd bit _ _
      split at h
      · rename_i c hc
        split at h
        · rename_i rest hrest
          simp only [Except.ok.injEq] at h
          subst h
          obtain ⟨hnd2, hnot, hmem⟩ := pool_eraseIdx hnd hc
          obtain ⟨hlen, hrnd, hsub⟩ := ih _ _ _ hnd2 hrest
          refine ⟨by simp [hlen], ?_, ?_⟩
          · simp only [List.map_cons, List.nodup_cons]
            refine ⟨?_, hrnd⟩
            intro hin
            obtain ⟨e, he, heq⟩ := List.mem_map.mp hin
            exact hnot (List.mem_map.mpr ⟨e.1, hsub e he, heq⟩)
          · intro e he
            rcases List.mem_cons.mp he with rfl | he
            · exact hmem
            · exact List.mem_of_mem_eraseIdx (hsub e he)
        · simp at h
      · simp at h
    · simp at h

/-- With the entropy source available for its `2 * n` requests and at least
`n` cards in the pool, the draw of `n` positions returns a result. -/
theorem drawFrom_available (entropy : EntropySource) : ∀ (n k : Nat) (pool : List TarotCard),
    n ≤ pool.length → (∀ j, k ≤ j → j < k + 2 * n → (entropy j).isSome = true) →
    ∃ r, drawFrom entropy n k pool = .ok r := by
  intro n
  induction n with
  | zero => intro k pool _ _; exact ⟨[], rfl⟩
  | succ n ih =>
    intro k pool hlen hav
    obtain ⟨rnd, hr⟩ := Option.isSome_iff_exists.mp (hav k (by omega) (by omega))
    obtain ⟨bit, hb⟩ := Option.isSome_iff_exists.mp (hav (k + 1) (by omega) (by omega))
    have hpos : 0 < pool.length := by omega
    have hi : rnd % pool.length < pool.length := Nat.mod_lt _ hpos
    obtain ⟨rest, hrest⟩ := ih (k + 2) (pool.eraseIdx (rnd % pool.length))
      (by rw [List.length_eraseIdx_of_lt hi]; omega)
      (fun j h1 h2 => hav j (by omega) (by omega))
    refine ⟨(pool[rnd % pool.length], bit % 2 == 1) :: rest, ?_⟩
    unfold drawFrom
    simp only [hr, hb, List.getElem?_eq_getElem hi, hrest]

/-- The only failure of the positional draw is `EntropyUnavailable`. -/
theorem drawFrom_error (entropy : EntropySource) : ∀ (n k : Nat) (pool : List TarotCard)
    (e : DrawError), drawFrom entropy n k pool = .error e → e = .EntropyUnavailable := by
  intro n
  induction n with
  | zero => intro k pool e h; simp [drawFrom] at h
  | succ n ih =>
    intro k pool e h
    unfold drawFrom at h
    split at h
    · split at h
      · split at h
        · simp at h
        · rename_i e2 he2
          simp only [Except.error.injEq] at h
          subst h
          exact ih _ _ _ he2
      · simp only [Except.error.injEq] at h
        exact h.symm
    · simp only [Except.error.injEq] at h
      exact h.symm

/-- A spread of the enumerated set resolves to its card count, which the
catalog can supply. -/
theorem cardCount_of_mem {spreadType : String} {n : Nat}
    (hspread : (spreadType, n) ∈ specCardCount) :
    cardCount spreadType = some n ∧ n ≤ tarotCards.length := by
  have hall : ∀ entry ∈ specCardCount,
      cardCount entry.1 = some entry.2 ∧ entry.2 ≤ tarotCards.length := by decide
  exact hall _ hspread

/-- The ids of the catalog are pairwise distinct. -/
theorem tarotCards_nodup_ids : (tarotCards.map (fun c => c.id)).Nodup := by decide

/-- C5: for every spread type of the enumerated set and every entropy
source, a result of `draw` has exactly `cardCount` entries with pairwise
distinct card ids; the draw does return a result whenever the source answers
its `2 * cardCount` requests, and its only failure is `EntropyUnavailable`. -/
theorem draw_distinct_cards (entropy : EntropySource) (spreadType : String) (n : Nat)
    (hspread : (spreadType, n) ∈ specCardCount) :
    (∀ r, draw entropy spreadType = .ok r →
      r.length = n ∧ (r.map (fun e => e.1.id)).Nodup) ∧
    ((∀ j, j < 2 * n → (entropy j).isSome = true) → ∃ r, draw entropy spreadType = .ok r) ∧
    (∀ e, draw entropy spreadType = .error e → e = .EntropyUnavailable) := by
  obtain ⟨hcount, hle⟩ := cardCount_of_mem hspread
  simp only [draw, hcount]
  refine ⟨?_, ?_, ?_⟩
  · intro r h
    obtain ⟨hlen, hnd, _⟩ := drawFrom_ok entropy n 0 tarotCards r tarotCards_nodup_ids h
    exact ⟨hlen, hnd⟩
  · intro hav
    exact drawFrom_available entropy n 0 tarotCards hle (fun j _ hj => hav j (by omega))
  · intro e h
    exact drawFrom_error entropy n 0 tarotCards e h

/-- Witness of C5: the largest spread, `zodiac`, under the entropy source
whose `k`-th answer is `k * k + k / 2`, returns twelve distinct cards. -/
theorem draw_distinct_cards_witness :
    ("zodiac", 12) ∈ specCardCount ∧
    ∃ r, draw (fun k => some (k * k + k / 2)) "zodiac" = .ok r ∧
      r.length = 12 ∧ (r.map (fun e => e.1.id)).Nodup := by
  have h := draw_distinct_cards (fun k => some (k * k + k / 2)) "zodiac" 12 (by decide)
  obtain ⟨r, hr⟩ := h.2.1 (fun _ _ => rfl)
  exact ⟨by decide, r, hr, h.1 r hr⟩

/-- C6: every card of the catalog has a non-empty `meaningUpright` and a
non-empty `meaningReversed`, and every entry of a draw result is a catalog
card, so the two meanings of its reply element are those of the catalog
record of its id, verbatim, and non-empty. -/
theorem draw_meanings_non_empty (entropy : EntropySource) (spreadType : String)
    (r : List (TarotCard × Bool)) (hdraw : draw entropy spreadType = .ok r) :
    (∀ c ∈ tarotCards, c.meaningUpright ≠ "" ∧ c.meaningReversed ≠ "") ∧
    (∀ e ∈ r, get e.1.id = .ok e.1 ∧
      (toCardJson e).meaningOfUpright = some e.1.meaningUpright ∧
      (toCardJson e).meaningOfReversed = some e.1.meaningReversed ∧
      e.1.meaningUpright ≠ "" ∧ e.1.meaningReversed ≠ "") := by
  have hcat : ∀ c ∈ tarotCards,
      (c.meaningUpright ≠ "" ∧ c.meaningReversed ≠ "") ∧ get c.id = .ok c := by
    set_option maxRecDepth 100000 in decide
  refine ⟨fun c hc => (hcat c hc).1, ?_⟩
  intro e he
  have hmem : e.1 ∈ tarotCards := by
    unfold draw at hdraw
    split at hdraw
    · simp at hdraw
    · exact (drawFrom_ok entropy _ 0 tarotCards r tarotCards_nodup_ids hdraw).2.2 e he
  exact ⟨(hcat _ hmem).2, rfl, rfl, (hcat _ hmem).1.1, (hcat _ hmem).1.2⟩

/-- Witness of C6: `draw("three")` under the entropy source whose `k`-th
answer is `k * k + k / 2` returns The Fool reversed, The Lovers and Judgement
reversed, each with its two catalog meanings. -/
theorem draw_meanings_non_empty_witness :
    draw (fun k => some (k * k + k / 2)) "three" = .ok [
      (TarotCard.mk 0 "愚者" "The Fool" "major" "新的开始、冒险、自由" "鲁莽、冲动、不计后果", true),
      (TarotCard.mk 6 "恋人" "The Lovers" "major" "爱情、和谐、选择" "失衡、分离、价值观冲突", false),
      (TarotCard.mk 20 "审判" "Judgement" "major" "重生、反思、召唤" "自我怀疑、拒绝反省", true)] ∧
    (toCardJson (TarotCard.mk 0 "愚者" "The Fool" "major" "新的开始、冒险、自由"
        "鲁莽、冲动、不计后果", true)).meaningOfUpright = some "新的开始、冒险、自由" ∧
    "新的开始、冒险、自由" ≠ "" :=
  have h := draw_meanings_non_empty (fun k => some (k * k + k / 2)) "three" [
      (TarotCard.mk 0 "愚者" "The Fool" "major" "新的开始、冒险、自由" "鲁莽、冲动、不计后果", true),
      (TarotCard.mk 6 "恋人" "The Lovers" "major" "爱情、和谐、选择" "失衡、分离、价值观冲突", false),
      (TarotCard.mk 20 "审判" "Judgement" "major" "重生、反思、召唤" "自我怀疑、拒绝反省", true)]
    (by decide)
  ⟨by decide, (h.2 _ (List.mem_cons_self _ _)).2.1, (h.2 _ (List.mem_cons_self _ _)).2.2.2.1⟩

/-! ## Properties of the draw tab -/

/-- C7: an error object in reply to `/api/spread` makes `renderResults`
throw at `data.cards.forEach`, so the pane shows the failure prefix followed
by the script engine's `TypeError` text, whatever status and message the
server sent: two error replies leave the page in the same state, no card is
rendered and the button is restored. At the replies `EntropyUnavailable`
(503) and `InvalidSpread` (400) under V8 the pane is the same text, which
holds neither message. -/
theorem doDraw_error_reply_drops_server_message :
    (∀ (tm : String) (p : Page) (status : Nat) (msg : String),
      doDrawResume tm p (.json status (errorReply msg)) =
        { p with results := "<div class=\"status-msg error\">抽牌失败: " ++ tm ++ "</div>",
                 btnText := "抽牌", btnDisabled := false, inFlight := none }) ∧
    (∀ (tm : String) (p : Page) (status1 status2 : Nat) (msg1 msg2 : String),
      doDrawResume tm p (.json status1 (errorReply msg1)) =
        doDrawResume tm p (.json status2 (errorReply msg2))) ∧
    run v8TypeErrorMessage
        [.clickDraw, .settle (.json 503 (errorReply "EntropyUnavailable"))] =
      { Page.initial with results :=
          "<div class=\"status-msg error\">抽牌失败: Cannot read properties of undefined (reading \x27forEach\x27)</div>" } ∧
    run v8TypeErrorMessage
        [.clickDraw, .settle (.json 400 (errorReply "InvalidSpread"))] =
      run v8TypeErrorMessage
        [.clickDraw, .settle (.json 503 (errorReply "EntropyUnavailable"))] := by
  refine ⟨fun _ _ _ _ => rfl, fun _ _ _ _ _ _ => rfl, by decide, by decide⟩

/-- The block of the `j`-th card from index `i` on is the block `forEach`
builds for that card at index `i + j`. -/
theorem cardBlocks_getElem? (labels : List String) : ∀ (cards : List CardJson) (i j : Nat),
    (cardBlocks labels cards i)[j]? = (cards[j]?).map (fun c => cardBlock labels c (i + j)) := by
  intro cards
  induction cards with
  | nil => intro i j; simp [cardBlocks]
  | cons c cs ih =>
    intro i j
    cases j with
    | zero => simp [cardBlocks]
    | succ j =>
      simp only [cardBlocks, List.getElem?_cons_succ, ih]
      congr 1
      funext c
      congr 1
      omega

/-- One block per card. -/
theorem cardBlocks_length (labels : List String) : ∀ (cards : List CardJson) (i : Nat),
    (cardBlocks labels cards i).length = cards.length := by
  intro cards
  induction cards with
  | nil => intro i; rfl
  | cons c cs ih => intro i; simp [cardBlocks, ih]

/-- Every key of `posLabels` looks up its own label list, and no label is
the empty string. -/
theorem posLabels_lookup_of_mem {spreadType : String} {labels : List String}
    (h : (spreadType, labels) ∈ posLabels) :
    posLabels.lookup spreadType = some labels ∧ ∀ l ∈ labels, l ≠ "" := by
  have hall : ∀ entry ∈ posLabels,
      posLabels.lookup entry.1 = some entry.2 ∧ ∀ l ∈ entry.2, l ≠ "" := by decide
  exact hall _ h

/-- When `selectedSpread` still is the spread the cards were drawn for, and
the reply has one card per label, `renderResults` writes one block per card
in array order, and the block of card `i` carries the label `labels[i]` of
that spread, not the fallback text. -/
theorem renderResults_labels_of_selected (tm : String) (spreadType : String)
    (labels : List String) (data : Reply) (cards : List CardJson)
    (hspread : (spreadType, labels) ∈ posLabels) (hcards : data.cards = some cards)
    (hlen : cards.length = labels.length) :
    renderResults tm spreadType data = .ok
      ("<div class=\"entropy-badge\">TRNG 硬件真随机</div>"
        ++ ("<h3 style=\"margin-bottom:16px\">" ++ jsOr data.spread "抽牌结果" ++ "</h3>")
        ++ String.join (cardBlocks labels cards 0)
        ++ "<div class=\"analysis\"><h4>简要分析</h4><p>"
        ++ analysisText cards ++ "</p></div>") ∧
    (cardBlocks labels cards 0).length = cards.length ∧
    ∀ i, i < cards.length →
      (cardBlocks labels cards 0)[i]? = (cards[i]?).map (fun c => cardBlock labels c i) ∧
      some (posLabel labels i) = labels[i]? := by
  obtain ⟨hlook, hne⟩ := posLabels_lookup_of_mem hspread
  refine ⟨?_, cardBlocks_length labels cards 0, ?_⟩
  · simp only [renderResults, hlook, hcards, Option.getD_some]
  · intro i hi
    refine ⟨by simpa using cardBlocks_getElem? labels cards 0 i, ?_⟩
    have hil : i < labels.length := by omega
    have hmem : labels[i] ∈ labels := List.getElem_mem hil
    simp only [posLabel, List.getElem?_eq_getElem hil, jsOr, if_neg (hne _ hmem)]

set_option maxRecDepth 20000 in
/-- C10: the labels come from `selectedSpread` as it is when the reply is
rendered, not from the spread that was requested. After the `three` button,
the draw button and, while the request for `three` is pending, the `zodiac`
button, the three cards of the reply appear under the zodiac labels 白羊,
金牛, 双子 instead of 过去, 现在, 未来. -/
theorem renderResults_labels_after_reselect :
    (run v8TypeErrorMessage [.clickSpread 1, .clickDraw, .clickSpread 8]).inFlight
      = some "three" ∧
    (run v8TypeErrorMessage [.clickSpread 1, .clickDraw, .clickSpread 8]).selectedSpread
      = "zodiac" ∧
    threeCardReply.cards.map List.length = cardCount "three" ∧
    (run v8TypeErrorMessage
      [.clickSpread 1, .clickDraw, .clickSpread 8, .settle (.json 200 threeCardReply)]).results
      = String.join [
          "<div class=\"entropy-badge\">TRNG 硬件真随机</div>",
          "<h3 style=\"margin-bottom:16px\">三张牌阵</h3>",
          "<div class=\"tarot-card \"><div class=\"spread-label\">白羊</div>",
          "<div class=\"name\">愚者 (正位)</div><div class=\"name-en\">The Fool - major</div>",
          "<span class=\"orientation-badge upright\">正位</span>",
          "<div class=\"meaning\"><strong>正位含义:</strong> 新的开始、冒险、自由</div>",
          "<div class=\"meaning secondary\"><strong>逆位含义:</strong> 鲁莽、冲动、不计后果</div></div>",
          "<div class=\"tarot-card reversed\"><div class=\"spread-label\">金牛</div>",
          "<div class=\"name\">魔术师 (逆位)</div><div class=\"name-en\">The Magician - major</div>",
          "<span class=\"orientation-badge reversed\">逆位</span>",
          "<div class=\"meaning\"><strong>逆位含义:</strong> 欺骗、操控、才能浪费</div>",
          "<div class=\"meaning secondary\"><strong>正位含义:</strong> 创造力、技能、意志力</div></div>",
          "<div class=\"tarot-card \"><div class=\"spread-label\">双子</div>",
          "<div class=\"name\">权杖二 (正位)</div><div class=\"name-en\">Two of Wands - minor</div>",
          "<span class=\"orientation-badge upright\">正位</span>",
          "<div class=\"meaning\"><strong>正位含义:</strong> 计划、展望、决策</div>",
          "<div class=\"meaning secondary\"><strong>逆位含义:</strong> 恐惧未知、缺乏规划</div></div>",
          "<div class=\"analysis\"><h4>简要分析</h4><p>",
          "共3张牌中，<strong>2张正位</strong>、<strong>1张逆位</strong>",
          "，其中<strong>2张大阿卡纳</strong>，显示出命运层面的重大影响",
          "。整体能量偏向积极正面。</p></div>"] ∧
    posLabels.lookup "three" = some ["过去", "现在", "未来"] :=
  ⟨rfl, rfl, rfl, rfl, rfl⟩

/-! ## Properties of the analysis paragraph -/

/-- The upright cards and the reversed cards of a reply split its cards. -/
theorem upright_add_reversed (cards : List CardJson) :
    (cards.filter (fun c => !c.isReversed)).length
      + (cards.filter (fun c => c.isReversed)).length = cards.length := by
  induction cards with
  | nil => rfl
  | cons c cs ih =>
    cases hrev : c.isReversed <;> simp [List.filter_cons, hrev] <;> omega

/-- The Major Arcana clause is never the empty string. -/
theorem major_clause_ne_empty (s t : String) : "，其中<strong>" ++ s ++ t ≠ "" := by
  intro h
  have hlen := congrArg String.length h
  simp only [String.length_append] at hlen
  have h0 : "，其中<strong>".length = 11 := by decide
  have h1 : "".length = 0 := rfl
  omega

/-- C11: for a reply with no card or with two or more cards, the analysis
paragraph reports the number of cards, the upright count and the reversed
count, which add up to the number of cards; the Major Arcana count is at most
the number of cards and its clause is present exactly when that count is
positive; and the paragraph ends in exactly one of the three trend
sentences: the positive one iff upright > reversed, the reflective one iff
reversed > upright, the balanced one iff the two are equal. -/
theorem analysisText_counts_and_trend (cards : List CardJson) (hlen : cards.length ≠ 1) :
    ∃ (up rev major : Nat) (clause trend : String),
      up = (cards.filter (fun c => !c.isReversed)).length ∧
      rev = (cards.filter (fun c => c.isReversed)).length ∧
      major = (cards.filter (fun c => c.arcana == "major")).length ∧
      analysisText cards =
        "共" ++ toString cards.length ++ "张牌中，<strong>" ++ toString up
          ++ "张正位</strong>、<strong>" ++ toString rev ++ "张逆位</strong>"
          ++ clause ++ "。" ++ trend ∧
      up + rev = cards.length ∧ major ≤ cards.length ∧
      (0 < major → clause =
        "，其中<strong>" ++ toString major ++ "张大阿卡纳</strong>，显示出命运层面的重大影响") ∧
      (clause = "" ↔ major = 0) ∧
      (trend = "整体能量偏向积极正面。" ∨ trend = "整体需要更多的反思与调整。" ∨
        trend = "正逆位均衡，暗示事物处于转折点。") ∧
      (trend = "整体能量偏向积极正面。" ↔ up > rev) ∧
      (trend = "整体需要更多的反思与调整。" ↔ rev > up) ∧
      (trend = "正逆位均衡，暗示事物处于转折点。" ↔ up = rev) := by
  have hsum := upright_add_reversed cards
  have hmajor : (cards.filter (fun c => c.arcana == "major")).length ≤ cards.length :=
    List.length_filter_le _ _
  have hne12 : "整体能量偏向积极正面。" ≠ "整体需要更多的反思与调整。" := by decide
  have hne13 : "整体能量偏向积极正面。" ≠ "正逆位均衡，暗示事物处于转折点。" := by decide
  have hne23 : "整体需要更多的反思与调整。" ≠ "正逆位均衡，暗示事物处于转折点。" := by decide
  refine ⟨_, _, _,
    if (cards.filter (fun c => c.arcana == "major")).length > 0 then
      "，其中<strong>" ++ toString (cards.filter (fun c => c.arcana == "major")).length
        ++ "张大阿卡纳</strong>，显示出命运层面的重大影响"
    else "",
    if (cards.filter (fun c => !c.isReversed)).length
        > (cards.filter (fun c => c.isReversed)).length then "整体能量偏向积极正面。"
    else if (cards.filter (fun c => c.isReversed)).length
        > (cards.filter (fun c => !c.isReversed)).length then "整体需要更多的反思与调整。"
    else "正逆位均衡，暗示事物处于转折点。",
    rfl, rfl, rfl, ?_, hsum, hmajor, ?_, ?_, ?_, ?_, ?_, ?_⟩
  · unfold analysisText
    split
    · simp at hlen
    · rfl
  · intro hpos
    rw [if_pos hpos]
  · split_ifs with h
    · exact ⟨fun hc => absurd hc (major_clause_ne_empty _ _), fun h0 => by omega⟩
    · exact ⟨fun _ => by omega, fun _ => rfl⟩
  · split_ifs <;> simp
  · split_ifs with h1 h2
    · simp [h1]
    · simp [h1, hne12.symm]
    · simp [h1, hne13.symm]
  · split_ifs with h1 h2
    · simp [hne12]; omega
    · simp [h2]
    · simp [hne23.symm, h2]
  · split_ifs with h1 h2
    · simp [hne13]; omega
    · simp [hne23]; omega
    · simp; omega

/-- Witness of C11: a reply of three cards, two upright and one reversed,
two of them Major Arcana. -/
theorem analysisText_counts_and_trend_witness :
    [CardJson.mk "愚者" "The Fool" "major" false (some "新的开始、冒险、自由")
        (some "鲁莽、冲动、不计后果"),
      CardJson.mk "魔术师" "The Magician" "major" true (some "创造力、技能、意志力")
        (some "欺骗、操控、才能浪费"),
      CardJson.mk "权杖二" "Two of Wands" "minor" false (some "计划、展望、决策")
        (some "恐惧未知、缺乏规划")].length ≠ 1 ∧
    ∃ (up rev major : Nat) (clause trend : String),
      analysisText [
        CardJson.mk "愚者" "The Fool" "major" false (some "新的开始、冒险、自由")
          (some "鲁莽、冲动、不计后果"),
        CardJson.mk "魔术师" "The Magician" "major" true (some "创造力、技能、意志力")
          (some "欺骗、操控、才能浪费"),
        CardJson.mk "权杖二" "Two of Wands" "minor" false (some "计划、展望、决策")
          (some "恐惧未知、缺乏规划")] =
        "共" ++ toString 3 ++ "张牌中，<strong>" ++ toString up
          ++ "张正位</strong>、<strong>" ++ toString rev ++ "张逆位</strong>"
          ++ clause ++ "。" ++ trend ∧
      up = 2 ∧ rev = 1 ∧ major = 2 ∧ up + rev = 3 ∧ trend = "整体能量偏向积极正面。" := by
  obtain ⟨up, rev, major, clause, trend, hup, hrev, hmajor, htext, hsum, _, _, _, _, hpos, _, _⟩ :=
    analysisText_counts_and_trend [
      CardJson.mk "愚者" "The Fool" "major" false (some "新的开始、冒险、自由")
        (some "鲁莽、冲动、不计后果"),
      CardJson.mk "魔术师" "The Magician" "major" true (some "创造力、技能、意志力")
        (some "欺骗、操控、才能浪费"),
      CardJson.mk "权杖二" "Two of Wands" "minor" false (some "计划、展望、决策")
        (some "恐惧未知、缺乏规划")] (by decide)
  have hup2 : up = 2 := hup.trans (by decide)
  have hrev1 : rev = 1 := hrev.trans (by decide)
  have hmajor2 : major = 2 := hmajor.trans (by decide)
  exact ⟨by decide, up, rev, major, clause, trend, htext, hup2, hrev1, hmajor2, hsum,
    hpos.mpr (by omega)⟩

/-! ## Orientation of a card block -/

/-- The block of a reversed card: class `reversed`, suffix and badge 逆位,
the reversed meaning first under 逆位含义, the upright meaning second. -/
theorem cardBlock_reversed (labels : List String) (c : CardJson) (i : Nat)
    (hrev : c.isReversed = true) :
    cardBlock labels c i =
      "<div class=\"tarot-card reversed\">"
        ++ ("<div class=\"spread-label\">" ++ posLabel labels i ++ "</div>")
        ++ ("<div class=\"name\">" ++ c.name ++ " (逆位)" ++ "</div>")
        ++ ("<div class=\"name-en\">" ++ c.nameEn ++ " - " ++ c.arcana ++ "</div>")
        ++ ("<span class=\"orientation-badge reversed\">" ++ "逆位" ++ "</span>")
        ++ ("<div class=\"meaning\"><strong>" ++ "逆位含义" ++ ":</strong> "
            ++ jsOr c.meaningOfReversed "" ++ "</div>")
        ++ ("<div class=\"meaning secondary\"><strong>" ++ "正位含义" ++ ":</strong> "
            ++ jsOr c.meaningOfUpright "" ++ "</div>")
        ++ "</div>" := by
  simp only [cardBlock, hrev, if_true]
  rfl

/-- The block of an upright card: no extra class, suffix and badge 正位, the
upright meaning first under 正位含义, the reversed meaning second. -/
theorem cardBlock_upright (labels : List String) (c : CardJson) (i : Nat)
    (hrev : c.isReversed = false) :
    cardBlock labels c i =
      "<div class=\"tarot-card \">"
        ++ ("<div class=\"spread-label\">" ++ posLabel labels i ++ "</div>")
        ++ ("<div class=\"name\">" ++ c.name ++ " (正位)" ++ "</div>")
        ++ ("<div class=\"name-en\">" ++ c.nameEn ++ " - " ++ c.arcana ++ "</div>")
        ++ ("<span class=\"orientation-badge upright\">" ++ "正位" ++ "</span>")
        ++ ("<div class=\"meaning\"><strong>" ++ "正位含义" ++ ":</strong> "
            ++ jsOr c.meaningOfUpright "" ++ "</div>")
        ++ ("<div class=\"meaning secondary\"><strong>" ++ "逆位含义" ++ ":</strong> "
            ++ jsOr c.meaningOfReversed "" ++ "</div>")
        ++ "</div>" := by
  simp only [cardBlock, hrev]
  rfl

/-- For a one-card reply whose card carries the meaning of its orientation,
the analysis sentence quotes the very text the primary line of the block
shows. -/
theorem analysisText_single_of_present (c : CardJson) (m : String)
    (hm : (if c.isReversed then c.meaningOfReversed else c.meaningOfUpright) = some m) :
    analysisText [c] =
      "你抽到了<strong>" ++ c.name ++ "</strong>" ++ (if c.isReversed then "(逆位)" else "(正位)")
        ++ "。这张牌代表: " ++ m ++ "。请结合你当前的处境和问题来理解这张牌的指引。" ∧
    jsOr (if c.isReversed then c.meaningOfReversed else c.meaningOfUpright) "" = m := by
  constructor
  · simp only [analysisText, hm, jsStr]
  · rw [hm]
    simp only [jsOr]
    split_ifs with h
    · exact h.symm
    · rfl

/-- The guard `x || ''` leaves a present meaning as it is. -/
theorem jsOr_some_empty (m : String) : jsOr (some m) "" = m := by
  simp only [jsOr]
  split_ifs with h
  · exact h.symm
  · rfl

/-- C12: for a reply with a `cards` array, `renderResults` writes one block
per card followed by the analysis paragraph. For every card that carries its
two meanings, as the reply format has it, the block of a reversed card has the
class `reversed`, the name suffix and the badge 逆位, the reversed meaning
first under 逆位含义 and the upright meaning second under 正位含义; the block
of an upright card has the suffix and badge 正位 (badge class `upright`), the
upright meaning first under 正位含义 and the reversed meaning second under
逆位含义. For a one-card reply the analysis sentence names the same
orientation and quotes the meaning of the primary line. -/
theorem renderResults_meaning_matches_orientation (tm selectedSpread : String) (data : Reply)
    (cards : List CardJson) (hcards : data.cards = some cards) :
    renderResults tm selectedSpread data = .ok
      ("<div class=\"entropy-badge\">TRNG 硬件真随机</div>"
        ++ ("<h3 style=\"margin-bottom:16px\">" ++ jsOr data.spread "抽牌结果" ++ "</h3>")
        ++ String.join (cardBlocks ((posLabels.lookup selectedSpread).getD []) cards 0)
        ++ "<div class=\"analysis\"><h4>简要分析</h4><p>"
        ++ analysisText cards ++ "</p></div>") ∧
    (cardBlocks ((posLabels.lookup selectedSpread).getD []) cards 0).length = cards.length ∧
    (∀ (i : Nat) (c : CardJson) (up rev : String), cards[i]? = some c →
      c.meaningOfUpright = some up → c.meaningOfReversed = some rev →
      (cardBlocks ((posLabels.lookup selectedSpread).getD []) cards 0)[i]? = some
        (if c.isReversed then
          "<div class=\"tarot-card reversed\">"
            ++ ("<div class=\"spread-label\">"
                ++ posLabel ((posLabels.lookup selectedSpread).getD []) i ++ "</div>")
            ++ ("<div class=\"name\">" ++ c.name ++ " (逆位)" ++ "</div>")
            ++ ("<div class=\"name-en\">" ++ c.nameEn ++ " - " ++ c.arcana ++ "</div>")
            ++ ("<span class=\"orientation-badge reversed\">" ++ "逆位" ++ "</span>")
            ++ ("<div class=\"meaning\"><strong>" ++ "逆位含义" ++ ":</strong> " ++ rev
                ++ "</div>")
            ++ ("<div class=\"meaning secondary\"><strong>" ++ "正位含义" ++ ":</strong> " ++ up
                ++ "</div>")
            ++ "</div>"
        else
          "<div class=\"tarot-card \">"
            ++ ("<div class=\"spread-label\">"
                ++ posLabel ((posLabels.lookup selectedSpread).getD []) i ++ "</div>")
            ++ ("<div class=\"name\">" ++ c.name ++ " (正位)" ++ "</div>")
            ++ ("<div class=\"name-en\">" ++ c.nameEn ++ " - " ++ c.arcana ++ "</div>")
            ++ ("<span class=\"orientation-badge upright\">" ++ "正位" ++ "</span>")
            ++ ("<div class=\"meaning\"><strong>" ++ "正位含义" ++ ":</strong> " ++ up
                ++ "</div>")
            ++ ("<div class=\"meaning secondary\"><strong>" ++ "逆位含义" ++ ":</strong> " ++ rev
                ++ "</div>")
            ++ "</div>")) ∧
    (∀ (c : CardJson) (up rev : String), cards = [c] →
      c.meaningOfUpright = some up → c.meaningOfReversed = some rev →
      analysisText cards =
        "你抽到了<strong>" ++ c.name ++ "</strong>"
          ++ (if c.isReversed then "(逆位)" else "(正位)")
          ++ "。这张牌代表: " ++ (if c.isReversed then rev else up)
          ++ "。请结合你当前的处境和问题来理解这张牌的指引。") := by
  refine ⟨?_, cardBlocks_length _ cards 0, ?_, ?_⟩
  · simp only [renderResults, hcards]
  · intro i c up rev hc hup hrev
    have hblock := cardBlocks_getElem? ((posLabels.lookup selectedSpread).getD []) cards 0 i
    rw [hc, Nat.zero_add, Option.map_some'] at hblock
    rw [hblock]
    congr 1
    cases horient : c.isReversed
    · rw [cardBlock_upright _ c i horient, hup, hrev, jsOr_some_empty, jsOr_some_empty]
      rfl
    · rw [cardBlock_reversed _ c i horient, hup, hrev, jsOr_some_empty, jsOr_some_empty]
      rfl
  · intro c up rev hone hup hrev
    subst hone
    have hm : (if c.isReversed then c.meaningOfReversed else c.meaningOfUpright)
        = some (if c.isReversed then rev else up) := by
      cases c.isReversed <;> simp [hup, hrev]
    exact (analysisText_single_of_present c _ hm).1

set_option maxRecDepth 20000 in
/-- Witness of C12: a `single` reply with The Magician reversed. The block
shows 逆位含义 with the reversed meaning first, and the analysis sentence
quotes that meaning. -/
theorem renderResults_meaning_matches_orientation_witness :
    (Reply.mk (some "单牌") (some [CardJson.mk "魔术师" "The Magician" "major" true
        (some "创造力、技能、意志力") (some "欺骗、操控、才能浪费")]) none).cards
      = some [CardJson.mk "魔术师" "The Magician" "major" true
        (some "创造力、技能、意志力") (some "欺骗、操控、才能浪费")] ∧
    (cardBlocks ((posLabels.lookup "single").getD [])
        [CardJson.mk "魔术师" "The Magician" "major" true
          (some "创造力、技能、意志力") (some "欺骗、操控、才能浪费")] 0)[0]? = some
      (String.join [
        "<div class=\"tarot-card reversed\"><div class=\"spread-label\">当前指引</div>",
        "<div class=\"name\">魔术师 (逆位)</div><div class=\"name-en\">The Magician - major</div>",
        "<span class=\"orientation-badge reversed\">逆位</span>",
        "<div class=\"meaning\"><strong>逆位含义:</strong> 欺骗、操控、才能浪费</div>",
        "<div class=\"meaning secondary\"><strong>正位含义:</strong> 创造力、技能、意志力</div></div>"]) ∧
    analysisText [CardJson.mk "魔术师" "The Magician" "major" true
        (some "创造力、技能、意志力") (some "欺骗、操控、才能浪费")] =
      "你抽到了<strong>魔术师</strong>(逆位)。这张牌代表: 欺骗、操控、才能浪费。请结合你当前的处境和问题来理解这张牌的指引。" :=
  have h := renderResults_meaning_matches_orientation v8TypeErrorMessage "single"
    (Reply.mk (some "单牌") (some [CardJson.mk "魔术师" "The Magician" "major" true
        (some "创造力、技能、意志力") (some "欺骗、操控、才能浪费")]) none)
    [CardJson.mk "魔术师" "The Magician" "major" true
        (some "创造力、技能、意志力") (some "欺骗、操控、才能浪费")] rfl
  ⟨rfl,
    (h.2.2.1 0 (CardJson.mk "魔术师" "The Magician" "major" true
        (some "创造力、技能、意志力") (some "欺骗、操控、才能浪费"))
      "创造力、技能、意志力" "欺骗、操控、才能浪费" rfl rfl rfl).trans rfl,
    (h.2.2.2 (CardJson.mk "魔术师" "The Magician" "major" true
        (some "创造力、技能、意志力") (some "欺骗、操控、才能浪费"))
      "创造力、技能、意志力" "欺骗、操控、才能浪费" rfl rfl rfl).trans rfl⟩

end CIBYP
